import Mathlib

/-!
Verification of the asynchronous merchant-verification pipeline:
the Result Cache, the Verification Service (`verifyMerchant` in
src/services/externalVerification.ts), the Verification Worker
(`externalVerificationWorker` in the BullMQ worker module), and the
webhook / submission route handlers.

The embedding is a shallow one: Redis is modelled as an association
list from keys to string values with absolute expiry times; the
nondeterministic or fallible parts (the `redis.get` / `redis.set`
round trips and the mocked external computation `Math.random() > 0.3`)
are oracles passed in as parameters, each of which may either return a
value or throw.  A rejected promise is an `Except.error`; a normal
return is `Except.ok`.  JavaScript template-literal stringification of
a non-string argument is modelled by `jsValueToString`.
-/

namespace SabbPe

/-- The verification outcome `{ success: boolean, message?: string }`. -/
structure VerificationResult where
  success : Bool
  message : Option String
deriving Repr, DecidableEq

/-- A cache entry: the stored string value together with its absolute
expiry time in seconds (write time + TTL). -/
structure CacheEntry where
  value : String
  expiresAt : Nat
deriving Repr, DecidableEq

/-- The Redis key space visible to this pipeline: an association list,
most recent write first. -/
def Cache := List (String × CacheEntry)
deriving Repr, DecidableEq

/-- `redis.get k` at time `t`: the stored value if the key is present
and unexpired, otherwise `none` (Redis deletes expired keys; a missing
key yields `null`, not an error). -/
def cacheGet (c : Cache) (t : Nat) (k : String) : Option String :=
  match List.lookup k c with
  | some e => if t < e.expiresAt then some e.value else none
  | none => none

/-- `redis.set k v 'EX' ttl` at time `t`: stores `v` under `k` with
expiry `t + ttl`, overwriting any prior entry (lookup finds the most
recent write first). -/
def cacheSet (c : Cache) (t : Nat) (k v : String) (ttl : Nat) : Cache :=
  (k, ⟨v, t + ttl⟩) :: c

/-- JavaScript truthiness of the value bound to `cachedResult`:
`null` (a missing key) and the empty string are falsy, every other
string is truthy — in particular the string `"false"` is truthy. -/
def jsTruthy (s : Option String) : Bool :=
  match s with
  | some v => v != ""
  | none => false

/-- JavaScript `String(b)` for a boolean. -/
def jsString (b : Bool) : String :=
  if b then "true" else "false"

/-- The cache key `merchant_verification:` followed by the merchant id,
as built by the template literal in `verifyMerchant`. -/
def verificationKey (merchantId : String) : String :=
  "merchant_verification:" ++ merchantId

/-- Result of one `verifyMerchant` call: the returned value, the cache
state afterwards, and how many times the external verification
computation (the `Math.random() > 0.3` line) was executed. -/
structure VerifyOutcome where
  result : VerificationResult
  cache : Cache
  computeCalls : Nat
deriving Repr, DecidableEq

/-- The body of the `try` block of `verifyMerchant`
(src/services/externalVerification.ts, lines 16-32), together with the
number of times the external computation ran.  Oracles: `g` is whether
the `redis.get` round trip succeeds, `comp` is the external
verification computation (which may itself throw), `s` is whether the
`redis.set` round trip succeeds.  `c` is the cache state and `t` the
current time. -/
def verifyMerchantTry (g : Bool) (comp : Except String Bool) (s : Bool)
    (c : Cache) (t : Nat) (m : String) :
    Except String (VerificationResult × Cache) × Nat :=
  -- const cachedResult = await redis.get(`merchant_verification:${merchantId}`)
  if !g then (.error "redis get failed", 0) else
  let cachedResult := cacheGet c t (verificationKey m)
  -- if (cachedResult) { return { success: cachedResult === 'true' } }
  if jsTruthy cachedResult then
    (.ok ({ success := cachedResult.getD "" == "true", message := none }, c), 0)
  else
    -- const isVerified = Math.random() > 0.3
    match comp with
    | .error e => (.error e, 1)
    | .ok isVerified =>
      -- await redis.set(`merchant_verification:${merchantId}`, String(isVerified), 'EX', 3600)
      if !s then (.error "redis set failed", 1) else
      (.ok ({ success := isVerified,
              message := some (if isVerified then "Verified successfully"
                               else "Verification failed") },
            cacheSet c t (verificationKey m) (jsString isVerified) 3600), 1)

/-- `verifyMerchant` (src/services/externalVerification.ts, lines
14-37): the try block wrapped in the catch-all handler, which turns
any thrown error into the normal return value
`{ success: false, message: 'Internal error during verification' }`.
The returned `Except` is the promise as seen by the caller: `.ok`
means the promise resolves, `.error` would mean it rejects.  The only
write to the cache is the `redis.set` inside the try block, and a set
that throws writes nothing, so on the catch path the cache is the
original `c`. -/
def verifyMerchant (g : Bool) (comp : Except String Bool) (s : Bool)
    (c : Cache) (t : Nat) (m : String) : Except String VerifyOutcome :=
  match verifyMerchantTry g comp s c t m with
  | (.ok (r, c'), n) => .ok ⟨r, c', n⟩
  | (.error _, n) =>
      .ok ⟨{ success := false, message := some "Internal error during verification" }, c, n⟩

/-- Outcome of one worker job execution: `completed r` when the
processor function returns `r` normally (BullMQ then acknowledges the
job), `failed e` when it throws (BullMQ marks the job failed and it
becomes eligible for retry). -/
inductive WorkerOutcome where
  | completed (r : VerificationResult)
  | failed (e : String)
deriving Repr, DecidableEq

/-- One run of the worker's processor on a job: the outcome, the list
of `sendNotification(merchantId, message)` invocations made (in
order), and the cache state afterwards. -/
structure WorkerRun where
  outcome : WorkerOutcome
  notifications : List (String × String)
  cache : Cache
deriving Repr, DecidableEq

/-- The processor function of `externalVerificationWorker` (worker
module, lines 17-38).  It awaits `verifyMerchant(merchantId)`, then
awaits `sendNotification` with a message chosen by the result's
`success` field, and returns the result; the catch block logs and
rethrows, so any rejection — from `verifyMerchant` or from
`sendNotification` — fails the job.  `notifyOk` is whether the
`sendNotification` call resolves; a rejecting `sendNotification` was
still invoked, so it is recorded either way. -/
def processJob (g : Bool) (comp : Except String Bool) (s : Bool) (notifyOk : Bool)
    (c : Cache) (t : Nat) (merchantId : String) : WorkerRun :=
  match verifyMerchant g comp s c t merchantId with
  | .error e => ⟨.failed e, [], c⟩
  | .ok out =>
    let msg := if out.result.success then "Verification successful!"
               else "Verification failed!"
    if notifyOk then
      ⟨.completed out.result, [(merchantId, msg)], out.cache⟩
    else
      ⟨.failed "notification error", [(merchantId, msg)], out.cache⟩

/-- A JSON-like JavaScript value, enough to model an Express request
body: a string or an object. -/
inductive JSValue where
  | str (v : String)
  | obj (fields : List (String × JSValue))

/-- JavaScript stringification as performed by a template literal:
a string interpolates as itself; a plain object interpolates as
the string of an open bracket, the word object, and a close bracket
(default `Object.prototype.toString`). -/
def jsValueToString (v : JSValue) : String :=
  match v with
  | .str x => x
  | .obj _ => "[object Object]"

/-- The HTTP response produced by the submit route. -/
structure SubmitResponse where
  status : Nat
  success : Bool
  data : Option VerificationResult
  message : Option String
deriving Repr, DecidableEq

/-- The try/catch of `router.post('/submit')`: on a resolved
`verifyMerchant` promise respond `res.json({ success: true, data:
result })` (status 200 by default); on a rejection respond
`res.status(500).json({ success: false, message: 'Server Error' })`,
leaving the cache as it was. -/
def submitRoute (verify : Except String VerifyOutcome) (c : Cache) :
    SubmitResponse × Cache :=
  match verify with
  | .ok out => (⟨200, true, some out.result, none⟩, out.cache)
  | .error _ => (⟨500, false, none, some "Server Error"⟩, c)

/-- `router.post('/submit')` as a whole: it calls
`verifyMerchant(req.body)` — the entire body object, not its
`merchantId` field — so the argument `verifyMerchant` interpolates
into its cache key is `jsValueToString body`. -/
def submitHandler (g : Bool) (comp : Except String Bool) (s : Bool)
    (c : Cache) (t : Nat) (body : JSValue) : SubmitResponse × Cache :=
  submitRoute (verifyMerchant g comp s c t (jsValueToString body)) c

/-- The HTTP response produced by the webhook route. -/
structure WebhookResponse where
  status : Nat
  body : String
deriving Repr, DecidableEq

/-- The try/catch of `router.post('/external-verification')` in
src/backend/src/routes/webhook.ts: `res.status(200).send('OK')` when
the awaited `verifyMerchant(req.body)` resolves,
`res.status(500).send('Webhook processing failed')` when it rejects. -/
def webhookRoute (verify : Except String VerifyOutcome) : WebhookResponse :=
  match verify with
  | .ok _ => ⟨200, "OK"⟩
  | .error _ => ⟨500, "Webhook processing failed"⟩

/-- `router.post('/external-verification')` as a whole; like the
submit route it passes the entire `req.body` to `verifyMerchant`. -/
def webhookHandler (g : Bool) (comp : Except String Bool) (s : Bool)
    (c : Cache) (t : Nat) (body : JSValue) : WebhookResponse × Cache :=
  match verifyMerchant g comp s c t (jsValueToString body) with
  | .ok out => (⟨200, "OK"⟩, out.cache)
  | .error _ => (⟨500, "Webhook processing failed"⟩, c)

/-! Helper lemmas shared by several theorems. -/

/-- The catch-all in `verifyMerchant` makes the function total: the
returned promise always resolves. -/
theorem verifyMerchant_total (g : Bool) (comp : Except String Bool) (s : Bool)
    (c : Cache) (t : Nat) (m : String) :
    ∃ out, verifyMerchant g comp s c t m = .ok out := by
  unfold verifyMerchant
  rcases hv : verifyMerchantTry g comp s c t m with ⟨rc, n⟩
  cases rc with
  | ok rc' =>
    obtain ⟨r, c'⟩ := rc'
    exact ⟨⟨r, c', n⟩, rfl⟩
  | error e => exact ⟨_, rfl⟩

/-- On a cache miss with a successfully computed outcome and a working
cache, `verifyMerchant` runs the computation once, caches the outcome
and returns it. -/
theorem verifyMerchant_miss (b : Bool) (c : Cache) (t : Nat) (m : String)
    (hmiss : jsTruthy (cacheGet c t (verificationKey m)) = false) :
    verifyMerchant true (.ok b) true c t m =
      .ok ⟨{ success := b,
             message := some (if b then "Verified successfully" else "Verification failed") },
           cacheSet c t (verificationKey m) (jsString b) 3600, 1⟩ := by
  unfold verifyMerchant verifyMerchantTry
  simp [hmiss]

/-- On a truthy cache hit, `verifyMerchant` returns the cached verdict
immediately, leaving the cache untouched and running no computation. -/
theorem verifyMerchant_hit (g2 : Except String Bool) (s2 : Bool)
    (c : Cache) (t : Nat) (m : String) (v : String)
    (hget : cacheGet c t (verificationKey m) = some v) (hv : v ≠ "") :
    verifyMerchant true g2 s2 c t m =
      .ok ⟨{ success := v == "true", message := none }, c, 0⟩ := by
  unfold verifyMerchant verifyMerchantTry
  simp [hget, jsTruthy, hv]

/-! Theorems for the claims. -/

/-- C2: on the cache-miss path `verifyMerchant` writes the freshly
computed outcome to the cache regardless of its polarity: the entry is
stored under `merchant_verification:` + merchantId, its value is
`"true"` on success and `"false"` otherwise, and its expiry is write
time + 3600 seconds; the outcome itself is returned. -/
theorem cache_miss_caches_both_polarities (b : Bool) (c : Cache) (t : Nat) (m : String)
    (hmiss : jsTruthy (cacheGet c t (verificationKey m)) = false) :
    ∃ c', verifyMerchant true (.ok b) true c t m =
        .ok ⟨{ success := b,
               message := some (if b then "Verified successfully" else "Verification failed") },
             c', 1⟩ ∧
      List.lookup (verificationKey m) c' =
        some ⟨if b then "true" else "false", t + 3600⟩ ∧
      cacheGet c' t (verificationKey m) = some (if b then "true" else "false") := by
  refine ⟨cacheSet c t (verificationKey m) (jsString b) 3600,
    verifyMerchant_miss b c t m hmiss, ?_, ?_⟩
  · simp [cacheSet, jsString, List.lookup]
  · simp [cacheSet, cacheGet, jsString, List.lookup]

/-- Witness for C2: a computed `false` outcome on an empty cache still
produces a cache entry equal to `"false"` with expiry 3600. -/
theorem cache_miss_caches_both_polarities_witness :
    ∃ c', verifyMerchant true (.ok false) true [] 0 "M-001" =
        .ok ⟨{ success := false, message := some "Verification failed" }, c', 1⟩ ∧
      List.lookup (verificationKey "M-001") c' = some ⟨"false", 3600⟩ ∧
      cacheGet c' 0 (verificationKey "M-001") = some "false" := by
  have h := cache_miss_caches_both_polarities false [] 0 "M-001" (by decide)
  simpa using h

/-- C3: if the cache access or the external computation itself throws,
`verifyMerchant` resolves with the failure result
`{ success: false, message: 'Internal error during verification' }`
and the cache is unchanged. -/
theorem verify_error_returns_failure_uncached (g : Bool) (comp : Except String Bool)
    (s : Bool) (c : Cache) (t : Nat) (m : String)
    (herr : ∃ e n, verifyMerchantTry g comp s c t m = (.error e, n)) :
    verifyMerchant g comp s c t m =
      .ok ⟨{ success := false, message := some "Internal error during verification" },
           c, (verifyMerchantTry g comp s c t m).2⟩ := by
  obtain ⟨e, n, heq⟩ := herr
  unfold verifyMerchant
  rw [heq]

/-- Witness for C3: a failing `redis.get` round trip yields the
internal-error result and leaves the empty cache empty. -/
theorem verify_error_returns_failure_uncached_witness :
    verifyMerchant false (.ok true) true [] 0 "M-001" =
      .ok ⟨{ success := false, message := some "Internal error during verification" },
           [], 0⟩ :=
  verify_error_returns_failure_uncached false (.ok true) true [] 0 "M-001"
    ⟨"redis get failed", 0, rfl⟩

/-- C9: the submit route responds `{ success: true, data: result }`
when the verification invocation resolves, and HTTP 500 with
`{ success: false, message: 'Server Error' }` — a generic message
independent of the error, leaking no internal detail — when it
rejects. -/
theorem submit_route_responses :
    (∀ (out : VerifyOutcome) (c : Cache),
      submitRoute (.ok out) c = (⟨200, true, some out.result, none⟩, out.cache)) ∧
    (∀ (e : String) (c : Cache),
      submitRoute (.error e) c = (⟨500, false, none, some "Server Error"⟩, c)) :=
  ⟨fun _ _ => rfl, fun _ _ => rfl⟩

/-- C10: `verifyMerchant` is total — for every behavior of the cache
and of the external computation, including either throwing, it
resolves with a `VerificationResult` and never rejects — and
consequently the error branches of the webhook and submit handlers are
unreachable: the webhook always responds 200 `OK` and the submit route
always responds 200. -/
theorem verify_total_handlers_never_500 :
    (∀ (g : Bool) (comp : Except String Bool) (s : Bool) (c : Cache) (t : Nat) (m : String),
      ∃ out, verifyMerchant g comp s c t m = .ok out) ∧
    (∀ (g : Bool) (comp : Except String Bool) (s : Bool) (c : Cache) (t : Nat) (body : JSValue),
      (webhookHandler g comp s c t body).1 = ⟨200, "OK"⟩) ∧
    (∀ (g : Bool) (comp : Except String Bool) (s : Bool) (c : Cache) (t : Nat) (body : JSValue),
      (submitHandler g comp s c t body).1.status = 200 ∧
      (submitHandler g comp s c t body).1.success = true) := by
  refine ⟨verifyMerchant_total, ?_, ?_⟩
  · intro g comp s c t body
    obtain ⟨out, hout⟩ := verifyMerchant_total g comp s c t (jsValueToString body)
    unfold webhookHandler
    rw [hout]
  · intro g comp s c t body
    obtain ⟨out, hout⟩ := verifyMerchant_total g comp s c t (jsValueToString body)
    unfold submitHandler
    rw [hout]
    exact ⟨rfl, rfl⟩

/-- C4 counterexample: with the external verification computation
throwing (an infrastructure outage) on a cache miss, the worker does
NOT fail the job: `verifyMerchant` swallows the error, the worker
sends `Verification failed!` and the job completes — no exception
propagates to the queue. -/
theorem external_error_completes_job_cex :
    processJob true (.error "external authority outage") true true [] 0 "M-001" =
      ⟨.completed { success := false, message := some "Internal error during verification" },
       [("M-001", "Verification failed!")], []⟩ := by
  decide

/-- C4 amended: when the external verification call errors out on a
cache miss, the error does not reach the Worker: `verifyMerchant`
catches it and resolves with the internal-error failure result, the
Worker sends the `Verification failed!` notification and (when the
notification sink is up) completes the job; nothing is cached. -/
theorem external_error_swallowed_job_completes (e : String) (s : Bool)
    (c : Cache) (t : Nat) (m : String)
    (hmiss : jsTruthy (cacheGet c t (verificationKey m)) = false) :
    processJob true (.error e) s true c t m =
      ⟨.completed { success := false, message := some "Internal error during verification" },
       [(m, "Verification failed!")], c⟩ := by
  unfold processJob verifyMerchant verifyMerchantTry
  simp [hmiss]

/-- Witness for the amended C4 at a concrete outage on an empty cache. -/
theorem external_error_swallowed_job_completes_witness :
    processJob true (.error "outage") true true [] 0 "M-001" =
      ⟨.completed { success := false, message := some "Internal error during verification" },
       [("M-001", "Verification failed!")], []⟩ :=
  external_error_swallowed_job_completes "outage" true [] 0 "M-001" (by decide)

/-- C5 counterexample: with a successful verification but a throwing
notification sink, the worker's catch rethrows and the job FAILS
instead of completing — the notification failure does change the
job's completion status. -/
theorem notify_failure_fails_job_cex :
    processJob true (.ok true) true false [] 0 "M-001" =
      ⟨.failed "notification error",
       [("M-001", "Verification successful!")],
       [(verificationKey "M-001", ⟨"true", 3600⟩)]⟩ := by
  decide

/-- C5 amended: a Notification Sink failure is caught by the worker's
catch block and rethrown, so the job fails (becoming eligible for
retry) rather than completing; the notification was still attempted
exactly once. -/
theorem notify_failure_fails_job (g : Bool) (comp : Except String Bool) (s : Bool)
    (c : Cache) (t : Nat) (m : String) :
    (processJob g comp s false c t m).outcome = .failed "notification error" ∧
    ∃ msg, (processJob g comp s false c t m).notifications = [(m, msg)] := by
  obtain ⟨out, hout⟩ := verifyMerchant_total g comp s c t m
  unfold processJob
  rw [hout]
  simp

/-- C6: every job the worker completes made exactly one notification
call, with message `Verification successful!` when the result's
`success` field is true and `Verification failed!` when it is false. -/
theorem completed_job_notifies_once (g : Bool) (comp : Except String Bool) (s : Bool)
    (notifyOk : Bool) (c : Cache) (t : Nat) (m : String) (r : VerificationResult)
    (hc : (processJob g comp s notifyOk c t m).outcome = .completed r) :
    (processJob g comp s notifyOk c t m).notifications =
      [(m, if r.success then "Verification successful!" else "Verification failed!")] := by
  obtain ⟨out, hout⟩ := verifyMerchant_total g comp s c t m
  unfold processJob at hc ⊢
  rw [hout] at hc ⊢
  cases notifyOk with
  | false => simp at hc
  | true =>
    simp at hc ⊢
    rw [hc]

/-- Witness for C6: a concrete successful run notifies once with the
success message. -/
theorem completed_job_notifies_once_witness :
    (processJob true (.ok true) true true [] 0 "M-001").notifications =
      [("M-001", if ({ success := true,
                       message := some "Verified successfully" : VerificationResult }).success
                 then "Verification successful!" else "Verification failed!")] :=
  completed_job_notifies_once true (.ok true) true true [] 0 "M-001"
    { success := true, message := some "Verified successfully" } (by decide)

/-- C7: once the entry for the merchant's key has reached its expiry
time, the next `verifyMerchant` call is a cache miss: it runs the
external computation (exactly once) and returns the fresh outcome, not
the stale cached value. -/
theorem ttl_expiry_recomputes (b : Bool) (c : Cache) (t1 : Nat) (m : String)
    (entry : CacheEntry)
    (hlook : List.lookup (verificationKey m) c = some entry)
    (hexp : entry.expiresAt ≤ t1) :
    ∃ out, verifyMerchant true (.ok b) true c t1 m = .ok out ∧
      out.computeCalls = 1 ∧ out.result.success = b := by
  have hmiss : jsTruthy (cacheGet c t1 (verificationKey m)) = false := by
    unfold cacheGet
    rw [hlook]
    simp [jsTruthy, Nat.not_lt.mpr hexp]
  exact ⟨_, verifyMerchant_miss b c t1 m hmiss, rfl, rfl⟩

/-- Witness for C7: an entry cached as `"true"` that expires at second
3600 is ignored at second 3600; the computation runs and its fresh
`false` outcome is returned. -/
theorem ttl_expiry_recomputes_witness :
    ∃ out, verifyMerchant true (.ok false) true
        [(verificationKey "M-001", ⟨"true", 3600⟩)] 3600 "M-001" = .ok out ∧
      out.computeCalls = 1 ∧ out.result.success = false :=
  ttl_expiry_recomputes false [(verificationKey "M-001", ⟨"true", 3600⟩)] 3600 "M-001"
    ⟨"true", 3600⟩ (by decide) (by decide)

/-- A truthy `cachedResult` is a present, non-empty string. -/
theorem jsTruthy_some (o : Option String) :
    jsTruthy o = true ↔ ∃ v, o = some v ∧ v ≠ "" := by
  cases o with
  | none => simp [jsTruthy]
  | some v => simp [jsTruthy]

/-- A successful `cacheGet` reads the value of the entry found by
lookup. -/
theorem cacheGet_some_val (c : Cache) (t : Nat) (k v : String)
    (h : cacheGet c t k = some v) :
    ∃ ent, List.lookup k c = some ent ∧ v = ent.value := by
  unfold cacheGet at h
  cases hl : List.lookup k c with
  | none => rw [hl] at h; exact absurd h (by simp)
  | some ent =>
    rw [hl] at h
    have h' : (if t < ent.expiresAt then some ent.value else none) = some v := h
    by_cases ht : t < ent.expiresAt
    · rw [if_pos ht] at h'
      exact ⟨ent, rfl, (Option.some.inj h').symm⟩
    · rw [if_neg ht] at h'
      exact absurd h' (by simp)

/-- C1: if `verifyMerchant` is called once (with a working cache, a
computation that completes, and a working write) and then called again
while the entry it read or wrote is still unexpired and truthy, the
second call returns the same `success` outcome as the first and runs
the external computation zero times — the cached entry is
authoritative. -/
theorem verify_idempotent (b : Bool) (c0 : Cache) (t0 t1 : Nat) (m : String)
    (comp2 : Except String Bool) (s2 : Bool) (out1 out2 : VerifyOutcome)
    (h1 : verifyMerchant true (.ok b) true c0 t0 m = .ok out1)
    (h2 : verifyMerchant true comp2 s2 out1.cache t1 m = .ok out2)
    (hfresh : jsTruthy (cacheGet out1.cache t1 (verificationKey m)) = true) :
    out2.result.success = out1.result.success ∧ out2.computeCalls = 0 := by
  obtain ⟨v, hv, hvne⟩ := (jsTruthy_some _).mp hfresh
  have h2' := verifyMerchant_hit comp2 s2 out1.cache t1 m v hv hvne
  have hout2 : out2 = ⟨{ success := v == "true", message := none }, out1.cache, 0⟩ := by
    injection h2.symm.trans h2'
  cases hcase : jsTruthy (cacheGet c0 t0 (verificationKey m)) with
  | true =>
    obtain ⟨w, hw, hwne⟩ := (jsTruthy_some _).mp hcase
    have h1' := verifyMerchant_hit (.ok b) true c0 t0 m w hw hwne
    have hout1 : out1 = ⟨{ success := w == "true", message := none }, c0, 0⟩ := by
      injection h1.symm.trans h1'
    have hvw : v = w := by
      obtain ⟨ent, hl, hvv⟩ := cacheGet_some_val _ t1 _ v (hout1 ▸ hv)
      obtain ⟨ent', hl', hww⟩ := cacheGet_some_val _ t0 _ w hw
      rw [hl] at hl'
      rw [hvv, hww, Option.some.inj hl']
    rw [hout1, hout2, hvw]
    exact ⟨rfl, rfl⟩
  | false =>
    have h1' := verifyMerchant_miss b c0 t0 m hcase
    have hout1 : out1 =
        ⟨{ success := b,
           message := some (if b then "Verified successfully" else "Verification failed") },
         cacheSet c0 t0 (verificationKey m) (jsString b) 3600, 1⟩ := by
      injection h1.symm.trans h1'
    have hvb : v = jsString b := by
      rw [hout1] at hv
      simp only [cacheSet, cacheGet, List.lookup, BEq.refl] at hv
      by_cases ht : t1 < t0 + 3600
      · rw [if_pos ht] at hv
        exact (Option.some.inj hv).symm
      · rw [if_neg ht] at hv
        exact absurd hv (by simp)
    rw [hout1, hout2, hvb]
    refine ⟨?_, rfl⟩
    cases b <;> simp [jsString]

/-- Witness for C1: first call at time 0 on an empty cache computes
`true` and caches it; second call at time 10 (within the TTL) returns
the same `true` outcome with zero computations, even though its own
computation oracle would have said `false`. -/
theorem verify_idempotent_witness :
    (⟨{ success := true, message := none },
      [(verificationKey "M-001", ⟨"true", 3600⟩)], 0⟩ : VerifyOutcome).result.success =
      (⟨{ success := true, message := some "Verified successfully" },
        [(verificationKey "M-001", ⟨"true", 3600⟩)], 1⟩ : VerifyOutcome).result.success ∧
    (⟨{ success := true, message := none },
      [(verificationKey "M-001", ⟨"true", 3600⟩)], 0⟩ : VerifyOutcome).computeCalls = 0 :=
  verify_idempotent true [] 0 10 "M-001" (.ok false) true
    ⟨{ success := true, message := some "Verified successfully" },
     [(verificationKey "M-001", ⟨"true", 3600⟩)], 1⟩
    ⟨{ success := true, message := none },
     [(verificationKey "M-001", ⟨"true", 3600⟩)], 0⟩
    (by rfl) (by rfl) (by decide)

/-- C8: the webhook and submit routes pass the entire `req.body`
object to `verifyMerchant`, not its `merchantId` field.  At the
failing input (a body carrying `merchantId = "M-001"`, with a fresh
`"true"` verdict already cached under `merchant_verification:M-001`),
the argument stringifies to `[object Object]`, so the submit route
misses the merchant's cache entry, recomputes, and returns a `false`
outcome — the key consulted is not the merchant's. -/
theorem routes_pass_body_object :
    jsValueToString (JSValue.obj [("merchantId", JSValue.str "M-001")]) = "[object Object]" ∧
    cacheGet [(verificationKey "M-001", ⟨"true", 3600⟩)] 0 (verificationKey "M-001") =
      some "true" ∧
    (submitHandler true (.ok false) true
        [(verificationKey "M-001", ⟨"true", 3600⟩)] 0
        (JSValue.obj [("merchantId", JSValue.str "M-001")])).1 =
      ⟨200, true, some { success := false, message := some "Verification failed" }, none⟩ := by
  refine ⟨rfl, by decide, ?_⟩
  decide

end SabbPe
